import Mathlib

/-!
BeyondGBrowse HTTP service: request validation and routing.

A shallow embedding of `src/httpservice.cpp`.  The C++ class `HttpService`
owns a `DatabaseQuery` (declared in `databasequery.h`, a file that is not
under `src/`) and registers eight routes on a `QHttpServer`.

Conventions of the embedding:

* `QString` is `String`; `isEmpty()` is equality with `""`.
* `quint16` is a `Nat` below `65536`, `qint32` an `Int`; the one place where
  the source narrows (`quint16 datasetId = ....toUInt()`) reduces with
  `% 65536`.
* `throw QString(...)` is `Except.error`; every service method returns the
  outcome together with the service state after the call.
* The service state carries the state of the store, the list of store calls
  made so far (ghost state, used to say that the store is or is not called)
  and the lines written with `qDebug()`.
-/

namespace BeyondGBrowse

/-! ## JSON values and responses -/

/-- An element of a result array: a string (autocomplete suggestions) or a
flat record of keys and values. -/
inductive QJsonValue where
  | string (s : String)
  | record (fields : List (String × String))
  deriving DecidableEq, Repr

/-- A JSON array, the result type of every query of the store. -/
abbrev QJsonArray := List QJsonValue

/-- A JSON document: an array or an object. -/
inductive QJsonDocument where
  | array (a : QJsonArray)
  | object (fields : List (String × QJsonValue))
  deriving DecidableEq, Repr

/-- The payload of a response. -/
inductive ResponseBody where
  | text (s : String)
  | json (document : QJsonDocument)
  deriving DecidableEq, Repr

/-- What a handler hands to the HTTP server: the status code, the header list
the handler itself supplies, and the payload. -/
structure Response where
  status : Nat
  headers : List (String × String)
  body : ResponseBody
  deriving DecidableEq, Repr

/-- The value of `QHttpServerResponder::StatusCode::Ok`. -/
def statusOk : Nat := 200

/-- The header list built in `writeResponseData` (lines 55-69). -/
def headerList : List (String × String) :=
  [("Access-Control-Allow-Origin", "*"),
   ("Access-Control-Allow-Methods", "GET, POST"),
   ("Access-Control-Allow-Headers", "X-Requested-With")]

/-- Method `HttpService::writeResponseData` (lines 53-71): `responder.write(document, headerList)`.
The `status` argument is accepted and not forwarded, so the responder writes
with its own default, `Ok`. -/
def writeResponseData (document : QJsonDocument) (_status : Nat) : Response :=
  { status := statusOk, headers := headerList, body := ResponseBody.json document }

/-! ## Qt string functions used by the handlers -/

/-- Scanning loop of `QString::split("..")` with empty parts kept: `cur` holds
the characters of the current part in reverse, `dot` tells that the character
just read is a `.` that may start a separator. -/
def splitAux : List Char → Bool → List Char → List (List Char)
  | cur, dot, [] => if dot then [('.' :: cur).reverse] else [cur.reverse]
  | cur, dot, c :: rest =>
    if dot then
      if c = '.' then cur.reverse :: splitAux [] false rest
      else splitAux (c :: '.' :: cur) false rest
    else
      if c = '.' then splitAux cur true rest
      else splitAux (c :: cur) false rest

/-- Call `position.split("..")`: the parts between successive occurrences of the
two-character separator, found left to right; a string without separator gives
one part. -/
def split (position : String) : List String :=
  (splitAux [] false position.data).map String.mk

/-- Call `QStringList::at(i)`: the element at index `i`; `none` stands for the
failed assertion `index out of range` of `QList<T>::at`. -/
def listAt (l : List String) (i : Nat) : Option String :=
  l.get? i

/-- Test `QChar::isSpace` on the ASCII range. -/
def isSpace (c : Char) : Bool :=
  c = ' ' || (9 ≤ c.toNat && c.toNat ≤ 13)

/-- Leading and trailing white space removed. -/
def trimmed (cs : List Char) : List Char :=
  ((cs.dropWhile isSpace).reverse.dropWhile isSpace).reverse

/-- Value of a string of decimal digits, `none` when another character occurs. -/
def digitsValue : Nat → List Char → Option Nat
  | acc, [] => some acc
  | acc, c :: cs =>
    if 48 ≤ c.toNat ∧ c.toNat ≤ 57 then digitsValue (acc * 10 + (c.toNat - 48)) cs
    else none

/-- A non-empty string of decimal digits. -/
def parseDigits (cs : List Char) : Option Nat :=
  if cs = [] then none else digitsValue 0 cs

/-- An optional sign followed by decimal digits. -/
def parseSigned (cs : List Char) : Option Int :=
  match cs with
  | [] => none
  | c :: rest =>
    if c = '-' then (parseDigits rest).map (fun n => - (n : Int))
    else if c = '+' then (parseDigits rest).map (fun n => (n : Int))
    else (parseDigits cs).map (fun n => (n : Int))

/-- Conversion `QString::toInt()` in base 10: the value of the string as a 32-bit signed
integer, and 0 when the conversion fails (empty string, a character that is
no digit, a value outside the range of `int`). -/
def toInt (s : String) : Int :=
  match parseSigned (trimmed s.data) with
  | some v => if -2147483648 ≤ v ∧ v ≤ 2147483647 then v else 0
  | none => 0

/-- Conversion `QString::toUInt()` in base 10: the value of the string as a 32-bit
unsigned integer, and 0 when the conversion fails (empty string, a minus sign,
a character that is no digit, a value above 4294967295). -/
def toUInt (s : String) : Nat :=
  match trimmed s.data with
  | [] => 0
  | c :: rest =>
    if c = '-' then 0
    else
      match parseSigned (c :: rest) with
      | some v => if 0 ≤ v ∧ v ≤ 4294967295 then v.toNat else 0
      | none => 0

/-- Conversion `QString::number(int)`. -/
def number (n : Int) : String :=
  toString n

/-! ## The request -/

/-- What the handlers read of a `QHttpServerRequest`: the decoded items of the
query string in order, the body decoded with `QString::fromUtf8`, and the
textual remote address. -/
structure QHttpServerRequest where
  query : List (String × String)
  body : String
  remoteAddress : String
  deriving DecidableEq, Repr

/-- Lookup `QUrlQuery::queryItemValue(key)`: the value of the first item with that
key, the empty string when there is none. -/
def queryItemValue (items : List (String × String)) (key : String) : String :=
  match items.find? (fun kv => kv.1 = key) with
  | some kv => kv.2
  | none => ""

/-- Test `QUrlQuery::hasQueryItem(key)`; the handlers never call it. -/
def hasQueryItem (items : List (String × String)) (key : String) : Bool :=
  items.any (fun kv => kv.1 = key)

/-! ## The store -/

/-- One call of a method of `DatabaseQuery`, with its arguments. -/
inductive StoreCall where
  | queryProteinBySequenceRegion (datasetId : Nat) (proteinName posStart posEnd : String)
  | queryRegionByProteinId (datasetId : Nat) (proteinName : String)
  | queryAnnotationBySequenceRegion (datasetId : Nat) (name posStart posEnd : String)
  | insertSequenceAnnotationAtSpecificPosition (datasetId : Nat) (id : Int) (name : String)
      (position : Int) (time contents authorUsername remoteAddress : String)
  | queryDatasetsList
  | queryProteinIdListForAutoComplete (datasetId : Nat) (proteinName : String)
  | searchAnnotation (datasetId : Nat) (id : Int)
      (contents authorUsername remoteAddress : String)
  deriving DecidableEq, Repr

/-- The class `DatabaseQuery`, whose definition is not among the sources: taken
as a parameter.  Each method maps its arguments and the state `σ` of the
database to its return value and the state after the call; the signatures are
those of the seven calls in `httpservice.cpp`. -/
structure DatabaseQuery (σ : Type) where
  queryProteinBySequenceRegion : Nat → String → String → String → σ → QJsonArray × σ
  queryRegionByProteinId : Nat → String → σ → QJsonArray × σ
  queryAnnotationBySequenceRegion : Nat → String → String → String → σ → QJsonArray × σ
  insertSequenceAnnotationAtSpecificPosition :
    Nat → Int → String → Int → String → String → String → String → σ → Bool × σ
  queryDatasetsList : σ → QJsonArray × σ
  queryProteinIdListForAutoComplete : Nat → String → σ → QJsonArray × σ
  searchAnnotation : Nat → Int → String → String → String → σ → QJsonArray × σ

/-- The state of an `HttpService` between two statements: the database behind
`this->databaseQuery`, the calls made on it so far, oldest first, and the lines
written to `qDebug()`, oldest first. -/
structure HttpService (σ : Type) where
  database : σ
  calls : List StoreCall
  debug : List String

/-- A store call: the method runs on the database and the call is recorded. -/
def HttpService.call {σ α : Type} (self : HttpService σ) (c : StoreCall)
    (method : σ → α × σ) : α × HttpService σ :=
  ((method self.database).1,
   { database := (method self.database).2, calls := self.calls ++ [c], debug := self.debug })

/-- Statement `qDebug() << line`. -/
def HttpService.qDebug {σ : Type} (self : HttpService σ) (line : String) : HttpService σ :=
  { database := self.database, calls := self.calls, debug := self.debug ++ [line] }

/-! ## The service methods (lines 272-379) -/

section Service

variable {σ : Type} (dq : DatabaseQuery σ)

/-- Method `HttpService::queryProteinByReferenceSequenceRegion` (lines 272-290):
the only test is `posList.size() != 2`; with two parts, `posList.at(0)` and
`posList.at(1)` go to the store as they are. -/
def queryProteinByReferenceSequenceRegion (datasetId : Nat) (proteinName position : String)
    (self : HttpService σ) : Except String QJsonArray × HttpService σ :=
  match split position with
  | [posStart, posEnd] =>
    let r := self.call
      (StoreCall.queryProteinBySequenceRegion datasetId proteinName posStart posEnd)
      (dq.queryProteinBySequenceRegion datasetId proteinName posStart posEnd)
    if r.1 = [] then (Except.error "NOT_FOUND", r.2) else (Except.ok r.1, r.2)
  | _ => (Except.error "ERROR_QUERY_ARGUMENT_INVALID", self)

/-- Method `HttpService::queryRegionByProteinId` (lines 292-306). -/
def queryRegionByProteinId (datasetId : Nat) (proteinName : String)
    (self : HttpService σ) : Except String QJsonArray × HttpService σ :=
  if proteinName = "" then
    (Except.error "ERROR_QUERY_ARGUMENT_INVALID", self)
  else
    let r := self.call (StoreCall.queryRegionByProteinId datasetId proteinName)
      (dq.queryRegionByProteinId datasetId proteinName)
    if r.1 = [] then (Except.error "NOT_FOUND", r.2) else (Except.ok r.1, r.2)

/-- Method `HttpService::queryAnnotationBySequenceRegion` (lines 308-322). -/
def queryAnnotationBySequenceRegion (datasetId : Nat) (name posStart posEnd : String)
    (self : HttpService σ) : Except String QJsonArray × HttpService σ :=
  if name = "" ∨ posStart = "" ∨ posEnd = "" then
    (Except.error "ERROR_QUERY_ARGUMENT_INVALID", self)
  else
    let r := self.call (StoreCall.queryAnnotationBySequenceRegion datasetId name posStart posEnd)
      (dq.queryAnnotationBySequenceRegion datasetId name posStart posEnd)
    if r.1 = [] then (Except.error "NOT_FOUND", r.2) else (Except.ok r.1, r.2)

/-- Method `HttpService::insertSequenceAnnotationAtSpecificPosition` (lines 324-336).
The parameter `id` is not used: the store receives the literal 0. -/
def insertSequenceAnnotationAtSpecificPosition (datasetId : Nat) (_id : Int) (name : String)
    (position : Int) (time contents authorUsername remoteAddress : String)
    (self : HttpService σ) : Except String Bool × HttpService σ :=
  if name = "" ∨ time = "" ∨ contents = "" then
    (Except.error "ERROR_QUERY_ARGUMENT_INVALID", self)
  else
    let r := self.call
      (StoreCall.insertSequenceAnnotationAtSpecificPosition
        datasetId 0 name position time contents authorUsername remoteAddress)
      (dq.insertSequenceAnnotationAtSpecificPosition
        datasetId 0 name position time contents authorUsername remoteAddress)
    (Except.ok r.1, r.2)

/-- Method `HttpService::queryDatasetsList` (lines 338-341). -/
def queryDatasetsList (self : HttpService σ) : Except String QJsonArray × HttpService σ :=
  let r := self.call StoreCall.queryDatasetsList dq.queryDatasetsList
  (Except.ok r.1, r.2)

/-- Method `HttpService::queryProteinIdListForAutoComplete` (lines 343-357). -/
def queryProteinIdListForAutoComplete (datasetId : Nat) (proteinName : String)
    (self : HttpService σ) : Except String QJsonArray × HttpService σ :=
  if proteinName = "" then
    (Except.error "ERROR_QUERY_ARGUMENT_INVALID", self)
  else
    let r := self.call (StoreCall.queryProteinIdListForAutoComplete datasetId proteinName)
      (dq.queryProteinIdListForAutoComplete datasetId proteinName)
    if r.1 = [] then (Except.error "NOT_FOUND", r.2) else (Except.ok r.1, r.2)

/-- Method `HttpService::searchAnnotation` (lines 359-379). -/
def searchAnnotation (datasetId : Nat) (id : Int)
    (contents authorUsername remoteAddress : String)
    (self : HttpService σ) : Except String QJsonArray × HttpService σ :=
  if (datasetId ≤ 0 ∨ datasetId ≥ 5000) ∨
      (id < 0 ∧ contents = "" ∧ authorUsername = "" ∧ remoteAddress = "") then
    (Except.error "ERROR_QUERY_ARGUMENT_INVALID", self)
  else
    let r := self.call
      ( StoreCall.searchAnnotation datasetId id contents authorUsername remoteAddress)
      ( dq.searchAnnotation datasetId id contents authorUsername remoteAddress)
    if r.1 = [] then (Except.error "NOT_FOUND", r.2) else (Except.ok r.1, r.2)

end Service

/-! ## The route handlers (lines 73-268) -/

/-- How the run of a handler ends: a response is written, or the handler is
stopped by the failed assertion of `QList<T>::at` (index out of range) before
it writes anything.  The assertion is no `QString`, so `catch (QString)` does
not intercept it. -/
inductive HandlerResult where
  | responded (r : Response)
  | assertFailed
  deriving DecidableEq, Repr

section Handlers

variable {σ : Type} (dq : DatabaseQuery σ)

/-- Handler of `/` (lines 75-77): it takes no responder and returns the
welcome text, which the server sends as plain text; `writeResponseData` is not
involved and the handler supplies no header. -/
def routeWelcome (self : HttpService σ) : HandlerResult × HttpService σ :=
  (HandlerResult.responded
    { status := statusOk, headers := [],
      body := ResponseBody.text "Welcome to BeyondGBrowse web interface!" }, self)

/-- Handler of `/<arg>/ref/<arg>/<arg>` (lines 85-97). -/
def routeRef (datasetId : Nat) (proteinName position : String)
    (self : HttpService σ) : HandlerResult × HttpService σ :=
  let r := queryProteinByReferenceSequenceRegion dq datasetId proteinName position self
  match r.1 with
  | Except.ok recordArray =>
    (HandlerResult.responded (writeResponseData (QJsonDocument.array recordArray) statusOk), r.2)
  | Except.error errorReason =>
    (HandlerResult.responded (writeResponseData (QJsonDocument.array []) statusOk),
     r.2.qDebug ("[Warning] " ++ ("/ref/" ++ proteinName ++ "/" ++ position ++ " :")
       ++ errorReason))

/-- Handler of `/<arg>/locate/<arg>` (lines 121-133). -/
def routeLocate (datasetId : Nat) (proteinName : String)
    (self : HttpService σ) : HandlerResult × HttpService σ :=
  let r := queryRegionByProteinId dq datasetId proteinName self
  match r.1 with
  | Except.ok recordArray =>
    (HandlerResult.responded (writeResponseData (QJsonDocument.array recordArray) statusOk), r.2)
  | Except.error errorReason =>
    (HandlerResult.responded (writeResponseData (QJsonDocument.array []) statusOk),
     r.2.qDebug ("[Warning] " ++ ("/locate/" ++ proteinName ++ " :") ++ errorReason))

/-- Handler of `/<arg>/annotation/query/<arg>/<arg>` (lines 147-160): the
position is split by the handler, which reads `posList.at(0)` and
`posList.at(1)` without looking at the size of the list. -/
def routeAnnotationQuery (datasetId : Nat) (name position : String)
    (self : HttpService σ) : HandlerResult × HttpService σ :=
  let posList := split position
  match listAt posList 0, listAt posList 1 with
  | some posStart, some posEnd =>
    let r := queryAnnotationBySequenceRegion dq datasetId name posStart posEnd self
    match r.1 with
    | Except.ok recordArray =>
      (HandlerResult.responded (writeResponseData (QJsonDocument.array recordArray) statusOk),
       r.2)
    | Except.error errorReason =>
      (HandlerResult.responded (writeResponseData (QJsonDocument.array []) statusOk),
       r.2.qDebug ("[Warning] " ++ ("/annotation/query/" ++ name ++ "/" ++ position ++ " :")
         ++ errorReason))
  | _, _ => (HandlerResult.assertFailed, self)

/-- Handler of `/annotation/insert` (lines 167-199).  The local
`bool isInsertSuccess;` has no initialiser and the `catch` block does not
assign it, so after a thrown `QString` the `if` reads a value the program never
wrote: `indeterminate` is that value. -/
def routeAnnotationInsert (indeterminate : Bool) (request : QHttpServerRequest)
    (self : HttpService σ) : HandlerResult × HttpService σ :=
  let datasetId := toUInt (queryItemValue request.query "datasetId") % 65536
  let name := queryItemValue request.query "refName"
  let position := toInt (queryItemValue request.query "position")
  let time := queryItemValue request.query "time"
  let authorUsername := queryItemValue request.query "author"
  let remoteAddress := request.remoteAddress
  let contents := request.body
  let r := insertSequenceAnnotationAtSpecificPosition dq
    datasetId 0 name position time contents authorUsername remoteAddress self
  let after : Bool × HttpService σ :=
    match r.1 with
    | Except.ok isInsertSuccess => (isInsertSuccess, r.2)
    | Except.error errorReason =>
      (indeterminate,
       r.2.qDebug ("[Warning] "
         ++ ("/annotation/insert/" ++ name ++ "/" ++ number position ++ "/" ++ time ++ "/... :")
         ++ errorReason))
  if after.1 then
    (HandlerResult.responded
      (writeResponseData
        (QJsonDocument.object [("status", QJsonValue.string "SUCCESS")]) statusOk), after.2)
  else
    (HandlerResult.responded
      (writeResponseData
        (QJsonDocument.object [("status", QJsonValue.string "FAIL")]) statusOk), after.2)

/-- Handler of `/datasets` (lines 206-218). -/
def routeDatasets (self : HttpService σ) : HandlerResult × HttpService σ :=
  let r := queryDatasetsList dq self
  match r.1 with
  | Except.ok recordArray =>
    (HandlerResult.responded (writeResponseData (QJsonDocument.array recordArray) statusOk), r.2)
  | Except.error errorReason =>
    (HandlerResult.responded (writeResponseData (QJsonDocument.array []) statusOk),
     r.2.qDebug ("[Warning] " ++ "/datasets :" ++ errorReason))

/-- Handler of `/<arg>/locate_autocomplete/<arg>` (lines 230-242). -/
def routeLocateAutocomplete (datasetId : Nat) (proteinName : String)
    (self : HttpService σ) : HandlerResult × HttpService σ :=
  let r := queryProteinIdListForAutoComplete dq datasetId proteinName self
  match r.1 with
  | Except.ok recordArray =>
    (HandlerResult.responded (writeResponseData (QJsonDocument.array recordArray) statusOk), r.2)
  | Except.error errorReason =>
    (HandlerResult.responded (writeResponseData (QJsonDocument.array []) statusOk),
     r.2.qDebug ("[Warning] " ++ ("/locate_autocomplete/" ++ proteinName ++ " :")
       ++ errorReason))

/-- Handler of `/annotation/search` (lines 249-267). -/
def routeAnnotationSearch (request : QHttpServerRequest)
    (self : HttpService σ) : HandlerResult × HttpService σ :=
  let datasetId := toUInt (queryItemValue request.query "datasetId") % 65536
  let id := toInt (queryItemValue request.query "id")
  let authorUsername := queryItemValue request.query "author"
  let remoteAddress := queryItemValue request.query "ipaddress"
  let contents := request.body
  let r := searchAnnotation dq datasetId id contents authorUsername remoteAddress self
  match r.1 with
  | Except.ok recordArray =>
    (HandlerResult.responded (writeResponseData (QJsonDocument.array recordArray) statusOk), r.2)
  | Except.error errorReason =>
    (HandlerResult.responded (writeResponseData (QJsonDocument.array []) statusOk),
     r.2.qDebug ("[Warning] "
       ++ ("/annotation/search/" ++ number datasetId ++ "/" ++ number id ++ "/"
            ++ authorUsername ++ "/" ++ remoteAddress ++ "... :")
       ++ errorReason))

end Handlers

/-! ## The routing table -/

/-- A request once the router has chosen its route and bound the placeholders
of the pattern to the parameters of the handler, in the order of declaration. -/
inductive Route where
  | welcome
  | ref (datasetId : Nat) (proteinName position : String)
  | locate (datasetId : Nat) (proteinName : String)
  | annotationQuery (datasetId : Nat) (name position : String)
  | annotationInsert (request : QHttpServerRequest)
  | datasets
  | locateAutocomplete (datasetId : Nat) (proteinName : String)
  | annotationSearch (request : QHttpServerRequest)
  deriving DecidableEq, Repr

/-- The first argument of the `route(...)` call that registers the handler. -/
def Route.pattern : Route → String
  | Route.welcome => "/"
  | Route.ref _ _ _ => "/<arg>/ref/<arg>/<arg>"
  | Route.locate _ _ => "/<arg>/locate/<arg>"
  | Route.annotationQuery _ _ _ => "/<arg>/annotation/query/<arg>/<arg>"
  | Route.annotationInsert _ => "/annotation/insert"
  | Route.datasets => "/datasets"
  | Route.locateAutocomplete _ _ => "/<arg>/locate_autocomplete/<arg>"
  | Route.annotationSearch _ => "/annotation/search"

/-- The handler that `initUrlRouting` registers for each route. -/
def handle {σ : Type} (dq : DatabaseQuery σ) (indeterminate : Bool) :
    Route → HttpService σ → HandlerResult × HttpService σ
  | Route.welcome => routeWelcome
  | Route.ref datasetId proteinName position => routeRef dq datasetId proteinName position
  | Route.locate datasetId proteinName => routeLocate dq datasetId proteinName
  | Route.annotationQuery datasetId name position =>
    routeAnnotationQuery dq datasetId name position
  | Route.annotationInsert request => routeAnnotationInsert dq indeterminate request
  | Route.datasets => routeDatasets dq
  | Route.locateAutocomplete datasetId proteinName =>
    routeLocateAutocomplete dq datasetId proteinName
  | Route.annotationSearch request => routeAnnotationSearch dq request

/-- The patterns of `initUrlRouting` in the order of registration (lines 75,
85, 121, 147, 167, 206, 230, 249). -/
def registeredPatterns : List String :=
  ["/",
   "/<arg>/ref/<arg>/<arg>",
   "/<arg>/locate/<arg>",
   "/<arg>/annotation/query/<arg>/<arg>",
   "/annotation/insert",
   "/datasets",
   "/<arg>/locate_autocomplete/<arg>",
   "/annotation/search"]

/-- Parts of a character list between slashes; `cur` holds the current part in
reverse. -/
def slashParts : List Char → List Char → List (List Char)
  | cur, [] => [cur.reverse]
  | cur, c :: rest =>
    if c = '/' then cur.reverse :: slashParts [] rest else slashParts (c :: cur) rest

/-- The segments of a path: the path starts with a slash, `/` alone has no
segment, and otherwise the segments are what stands between the slashes after
the first one.  A text that does not start with a slash is no path. -/
def pathSegments (path : String) : Option (List String) :=
  match path.data with
  | [] => none
  | c :: rest =>
    if c = '/' then
      if rest = [] then some [] else some ((slashParts [] rest).map String.mk)
    else none

/-- A segment of a pattern: literal text or the placeholder `<arg>`. -/
inductive Segment where
  | literal (text : String)
  | arg
  deriving DecidableEq, Repr

/-- The segments of a pattern, `<arg>` read as the placeholder. -/
def patternSegments (pattern : String) : Option (List Segment) :=
  (pathSegments pattern).map
    (fun segs => segs.map (fun s => if s = "<arg>" then Segment.arg else Segment.literal s))

/-- Modelled from the spec: the router is the Qt class `QHttpServerRouter`, not
part of the sources; the rule is the one the specification states: a literal
segment matches only itself, a placeholder matches one non-empty segment
(a segment never contains a slash). -/
def matchSegment : Segment → String → Bool
  | Segment.literal text, seg => seg = text
  | Segment.arg, seg => seg ≠ ""

/-- Modelled from the spec: segments are matched one by one and the counts
must agree. -/
def matchSegments : List Segment → List String → Bool
  | [], [] => true
  | p :: ps, seg :: segs => matchSegment p seg && matchSegments ps segs
  | _, _ => false

/-- Modelled from the spec: a pattern matches a path when their segments match. -/
def patternMatches (pattern path : String) : Bool :=
  match patternSegments pattern, pathSegments path with
  | some ps, some segs => matchSegments ps segs
  | _, _ => false

/-- The registered patterns that match a path, in the order of registration;
the router runs the first one. -/
def matchingPatterns (path : String) : List String :=
  registeredPatterns.filter (fun pattern => patternMatches pattern path)

/-! ## A store for concrete runs -/

/-- A store without state of its own: every query returns `rows`, every insert
returns `ok`. -/
def constStore (rows : QJsonArray) (ok : Bool) : DatabaseQuery Unit where
  queryProteinBySequenceRegion := fun _ _ _ _ u => (rows, u)
  queryRegionByProteinId := fun _ _ u => (rows, u)
  queryAnnotationBySequenceRegion := fun _ _ _ _ u => (rows, u)
  insertSequenceAnnotationAtSpecificPosition := fun _ _ _ _ _ _ _ _ u => (ok, u)
  queryDatasetsList := fun u => (rows, u)
  queryProteinIdListForAutoComplete := fun _ _ u => (rows, u)
  searchAnnotation := fun _ _ _ _ _ u => (rows, u)

/-- A service that has made no call and written no line yet. -/
def HttpService.fresh {σ : Type} (database : σ) : HttpService σ :=
  { database := database, calls := [], debug := [] }

/-- One annotation record, as in the comment at lines 139-146 of the source. -/
def sampleRows : QJsonArray :=
  [QJsonValue.record
    [("contents", "TEST"), ("name", "Scan998"), ("position", "89"),
     ("time", "2019-10-13T16:24:01.000")]]

/-! ## Definitions used to state the lemmas -/

/-- The array a handler ends up with in `recordArray`: what the service method
returned, or the empty array the variable was declared with when the method
threw. -/
def payload : Except String QJsonArray → QJsonArray
  | Except.ok recordArray => recordArray
  | Except.error _ => []

/-- The block shared by the six handlers that answer with an array: a returned
array is written, a thrown `QString` is logged after the route text and the
empty array is written. -/
def respond {σ : Type} (routeText : String)
    (r : Except String QJsonArray × HttpService σ) : HandlerResult × HttpService σ :=
  match r.1 with
  | Except.ok recordArray =>
    (HandlerResult.responded (writeResponseData (QJsonDocument.array recordArray) statusOk), r.2)
  | Except.error errorReason =>
    (HandlerResult.responded (writeResponseData (QJsonDocument.array []) statusOk),
     r.2.qDebug ("[Warning] " ++ routeText ++ errorReason))

/-- The response that carries an array. -/
def arrayResponse (rows : QJsonArray) : HandlerResult :=
  HandlerResult.responded (writeResponseData (QJsonDocument.array rows) statusOk)

/-! ## Shared lemmas -/

theorem call_fst {σ α : Type} (self : HttpService σ) (c : StoreCall) (method : σ → α × σ) :
    (self.call c method).1 = (method self.database).1 := rfl

theorem call_calls {σ α : Type} (self : HttpService σ) (c : StoreCall) (method : σ → α × σ) :
    (self.call c method).2.calls = self.calls ++ [c] := rfl

theorem qDebug_calls {σ : Type} (self : HttpService σ) (line : String) :
    (self.qDebug line).calls = self.calls := rfl

theorem respond_calls {σ : Type} (routeText : String)
    (r : Except String QJsonArray × HttpService σ) :
    (respond routeText r).2.calls = r.2.calls := by
  unfold respond
  split <;> rfl

theorem respond_database {σ : Type} (routeText : String)
    (r : Except String QJsonArray × HttpService σ) :
    (respond routeText r).2.database = r.2.database := by
  unfold respond
  split <;> rfl

theorem respond_result {σ : Type} (routeText : String)
    (r : Except String QJsonArray × HttpService σ) :
    (respond routeText r).1 = arrayResponse (payload r.1) := by
  unfold respond arrayResponse payload
  split <;> simp_all

theorem routeRef_eq {σ : Type} (dq : DatabaseQuery σ) (datasetId : Nat)
    (proteinName position : String) (self : HttpService σ) :
    routeRef dq datasetId proteinName position self
      = respond ("/ref/" ++ proteinName ++ "/" ++ position ++ " :")
          (queryProteinByReferenceSequenceRegion dq datasetId proteinName position self) := rfl

theorem routeLocate_eq {σ : Type} (dq : DatabaseQuery σ) (datasetId : Nat)
    (proteinName : String) (self : HttpService σ) :
    routeLocate dq datasetId proteinName self
      = respond ("/locate/" ++ proteinName ++ " :")
          (queryRegionByProteinId dq datasetId proteinName self) := rfl

theorem routeDatasets_eq {σ : Type} (dq : DatabaseQuery σ) (self : HttpService σ) :
    routeDatasets dq self = respond "/datasets :" (queryDatasetsList dq self) := rfl

theorem routeLocateAutocomplete_eq {σ : Type} (dq : DatabaseQuery σ) (datasetId : Nat)
    (proteinName : String) (self : HttpService σ) :
    routeLocateAutocomplete dq datasetId proteinName self
      = respond ("/locate_autocomplete/" ++ proteinName ++ " :")
          (queryProteinIdListForAutoComplete dq datasetId proteinName self) := rfl

theorem routeAnnotationSearch_eq {σ : Type} (dq : DatabaseQuery σ)
    (request : QHttpServerRequest) (self : HttpService σ) :
    routeAnnotationSearch dq request self
      = respond
          ("/annotation/search/"
            ++ number (toUInt (queryItemValue request.query "datasetId") % 65536 : Nat) ++ "/"
            ++ number (toInt (queryItemValue request.query "id")) ++ "/"
            ++ queryItemValue request.query "author" ++ "/"
            ++ queryItemValue request.query "ipaddress" ++ "... :")
          ( searchAnnotation dq (toUInt (queryItemValue request.query "datasetId") % 65536)
            (toInt (queryItemValue request.query "id")) request.body
            (queryItemValue request.query "author")
            (queryItemValue request.query "ipaddress") self) := rfl

theorem routeAnnotationQuery_eq {σ : Type} (dq : DatabaseQuery σ) (datasetId : Nat)
    (name position posStart posEnd : String) (self : HttpService σ)
    (h0 : listAt (split position) 0 = some posStart)
    (h1 : listAt (split position) 1 = some posEnd) :
    routeAnnotationQuery dq datasetId name position self
      = respond ("/annotation/query/" ++ name ++ "/" ++ position ++ " :")
          (queryAnnotationBySequenceRegion dq datasetId name posStart posEnd self) := by
  unfold routeAnnotationQuery
  simp only [h0, h1]
  rfl

/-- The two outcomes of `searchAnnotation`: rejected before the store is
touched, or exactly one store call whose rows decide between `NOT_FOUND` and
the rows themselves. -/
theorem searchAnnotation_eq {σ : Type} (dq : DatabaseQuery σ) (self : HttpService σ)
    (datasetId : Nat) (id : Int) (contents authorUsername remoteAddress : String) :
    searchAnnotation dq datasetId id contents authorUsername remoteAddress self =
      if ¬ (0 < datasetId ∧ datasetId < 5000) ∨
          (id < 0 ∧ contents = "" ∧ authorUsername = "" ∧ remoteAddress = "") then
        (Except.error "ERROR_QUERY_ARGUMENT_INVALID", self)
      else
        let r := self.call
          ( StoreCall.searchAnnotation datasetId id contents authorUsername remoteAddress)
          ( dq.searchAnnotation datasetId id contents authorUsername remoteAddress)
        if r.1 = [] then (Except.error "NOT_FOUND", r.2) else (Except.ok r.1, r.2) := by
  unfold searchAnnotation
  have h : ((datasetId ≤ 0 ∨ datasetId ≥ 5000) ∨
      (id < 0 ∧ contents = "" ∧ authorUsername = "" ∧ remoteAddress = "")) ↔
      (¬ (0 < datasetId ∧ datasetId < 5000) ∨
      (id < 0 ∧ contents = "" ∧ authorUsername = "" ∧ remoteAddress = "")) := by
    constructor
    · rintro (h | h)
      · left; omega
      · right; exact h
    · rintro (h | h)
      · left; omega
      · right; exact h
  by_cases hc : (¬ (0 < datasetId ∧ datasetId < 5000) ∨
      (id < 0 ∧ contents = "" ∧ authorUsername = "" ∧ remoteAddress = ""))
  · rw [if_pos (h.mpr hc), if_pos hc]
  · rw [if_neg (fun h1 => hc (h.mp h1)), if_neg hc]

/-- A rejected search: no store call, empty payload. -/
theorem searchAnnotation_rejected {σ : Type} (dq : DatabaseQuery σ) (self : HttpService σ)
    (datasetId : Nat) (id : Int) (contents authorUsername remoteAddress : String)
    (h : ¬ (0 < datasetId ∧ datasetId < 5000) ∨
          (id < 0 ∧ contents = "" ∧ authorUsername = "" ∧ remoteAddress = "")) :
    searchAnnotation dq datasetId id contents authorUsername remoteAddress self
      = (Except.error "ERROR_QUERY_ARGUMENT_INVALID", self) := by
  rw [searchAnnotation_eq, if_pos h]

/-- An accepted search: one store call, and the payload is what the store
returned (the empty array when it returned none and `NOT_FOUND` was thrown). -/
theorem searchAnnotation_accepted {σ : Type} (dq : DatabaseQuery σ) (self : HttpService σ)
    (datasetId : Nat) (id : Int) (contents authorUsername remoteAddress : String)
    (h : ¬ (¬ (0 < datasetId ∧ datasetId < 5000) ∨
          (id < 0 ∧ contents = "" ∧ authorUsername = "" ∧ remoteAddress = ""))) :
    ( searchAnnotation dq datasetId id contents authorUsername remoteAddress self).2.calls
        = self.calls ++
          [ StoreCall.searchAnnotation datasetId id contents authorUsername remoteAddress]
    ∧ payload ( searchAnnotation dq datasetId id contents authorUsername remoteAddress self).1
        = ( dq.searchAnnotation datasetId id contents authorUsername remoteAddress
            self.database).1 := by
  rw [searchAnnotation_eq, if_neg h]
  by_cases hr : (self.call
      ( StoreCall.searchAnnotation datasetId id contents authorUsername remoteAddress)
      ( dq.searchAnnotation datasetId id contents authorUsername remoteAddress)).1 = []
  · simp only [if_pos hr]
    exact ⟨rfl, by rw [← call_fst self
      ( StoreCall.searchAnnotation datasetId id contents authorUsername remoteAddress), hr]; rfl⟩
  · simp only [if_neg hr]
    exact ⟨rfl, rfl⟩

/-- A key that is absent from the query string reads as the empty string. -/
theorem queryItemValue_absent (items : List (String × String)) (key : String)
    (h : hasQueryItem items key = false) : queryItemValue items key = "" := by
  unfold queryItemValue
  have hnone : items.find? (fun kv => decide (kv.1 = key)) = none := by
    rw [List.find?_eq_none]
    intro kv hkv
    unfold hasQueryItem at h
    rw [List.any_eq_false] at h
    exact h kv hkv
  rw [hnone]

/-- The empty string converts to 0. -/
theorem toInt_empty : toInt "" = 0 := by decide

/-- The insert handler always answers through `writeResponseData`, with one of
the two status objects. -/
theorem routeAnnotationInsert_result {σ : Type} (dq : DatabaseQuery σ) (indeterminate : Bool)
    (request : QHttpServerRequest) (self : HttpService σ) :
    (routeAnnotationInsert dq indeterminate request self).1
        = HandlerResult.responded (writeResponseData
            (QJsonDocument.object [("status", QJsonValue.string "SUCCESS")]) statusOk)
    ∨ (routeAnnotationInsert dq indeterminate request self).1
        = HandlerResult.responded (writeResponseData
            (QJsonDocument.object [("status", QJsonValue.string "FAIL")]) statusOk) := by
  unfold routeAnnotationInsert
  simp only []
  split
  · left; rfl
  · right; rfl

/-- The array handlers answer through `writeResponseData`. -/
theorem respond_uses_writeResponseData {σ : Type} (routeText : String)
    (r : Except String QJsonArray × HttpService σ) (resp : Response)
    (h : (respond routeText r).1 = HandlerResult.responded resp) :
    resp = writeResponseData (QJsonDocument.array (payload r.1)) statusOk := by
  rw [respond_result] at h
  unfold arrayResponse at h
  exact (HandlerResult.responded.inj h).symm

/-- The insert method rejects an empty name, time or contents before the store
is touched. -/
theorem insert_rejected {σ : Type} (dq : DatabaseQuery σ) (self : HttpService σ)
    (datasetId : Nat) (id : Int) (name : String) (position : Int)
    (time contents authorUsername remoteAddress : String)
    (h : name = "" ∨ time = "" ∨ contents = "") :
    insertSequenceAnnotationAtSpecificPosition dq datasetId id name position time contents
        authorUsername remoteAddress self
      = (Except.error "ERROR_QUERY_ARGUMENT_INVALID", self) := by
  unfold insertSequenceAnnotationAtSpecificPosition
  rw [if_pos h]

/-- The insert method with valid arguments: one store call, the boolean of the
store returned. -/
theorem insert_accepted {σ : Type} (dq : DatabaseQuery σ) (self : HttpService σ)
    (datasetId : Nat) (id : Int) (name : String) (position : Int)
    (time contents authorUsername remoteAddress : String)
    (h : ¬ (name = "" ∨ time = "" ∨ contents = "")) :
    insertSequenceAnnotationAtSpecificPosition dq datasetId id name position time contents
        authorUsername remoteAddress self
      = (Except.ok (dq.insertSequenceAnnotationAtSpecificPosition datasetId 0 name position
            time contents authorUsername remoteAddress self.database).1,
         (self.call
            (StoreCall.insertSequenceAnnotationAtSpecificPosition datasetId 0 name position
              time contents authorUsername remoteAddress)
            (dq.insertSequenceAnnotationAtSpecificPosition datasetId 0 name position
              time contents authorUsername remoteAddress)).2) := by
  unfold insertSequenceAnnotationAtSpecificPosition
  rw [if_neg h]
  rfl

/-- The insert handler when validation fails: no store call, one log line,
and the status object chosen by the value read from the unassigned variable. -/
theorem routeAnnotationInsert_rejected {σ : Type} (dq : DatabaseQuery σ)
    (indeterminate : Bool) (request : QHttpServerRequest) (self : HttpService σ)
    (h : queryItemValue request.query "refName" = ""
          ∨ queryItemValue request.query "time" = "" ∨ request.body = "") :
    routeAnnotationInsert dq indeterminate request self
      = (HandlerResult.responded (writeResponseData
          (QJsonDocument.object
            [("status", QJsonValue.string (if indeterminate = true then "SUCCESS" else "FAIL"))])
          statusOk),
         self.qDebug ("[Warning] "
           ++ ("/annotation/insert/" ++ queryItemValue request.query "refName" ++ "/"
                ++ number (toInt (queryItemValue request.query "position")) ++ "/"
                ++ queryItemValue request.query "time" ++ "/... :")
           ++ "ERROR_QUERY_ARGUMENT_INVALID")) := by
  unfold routeAnnotationInsert
  simp only [insert_rejected dq self _ _ _ _ _ _ _ _ h]
  cases indeterminate <;> rfl

/-- The insert handler when validation passes: one store call and the status
object chosen by the boolean of the store. -/
theorem routeAnnotationInsert_accepted {σ : Type} (dq : DatabaseQuery σ)
    (indeterminate : Bool) (request : QHttpServerRequest) (self : HttpService σ)
    (h : ¬ (queryItemValue request.query "refName" = ""
          ∨ queryItemValue request.query "time" = "" ∨ request.body = "")) :
    routeAnnotationInsert dq indeterminate request self
      = (HandlerResult.responded (writeResponseData
          (QJsonDocument.object
            [("status", QJsonValue.string
              (if (dq.insertSequenceAnnotationAtSpecificPosition
                    (toUInt (queryItemValue request.query "datasetId") % 65536) 0
                    (queryItemValue request.query "refName")
                    (toInt (queryItemValue request.query "position"))
                    (queryItemValue request.query "time") request.body
                    (queryItemValue request.query "author") request.remoteAddress
                    self.database).1 = true
               then "SUCCESS" else "FAIL"))])
          statusOk),
         (self.call
            (StoreCall.insertSequenceAnnotationAtSpecificPosition
              (toUInt (queryItemValue request.query "datasetId") % 65536) 0
              (queryItemValue request.query "refName")
              (toInt (queryItemValue request.query "position"))
              (queryItemValue request.query "time") request.body
              (queryItemValue request.query "author") request.remoteAddress)
            (dq.insertSequenceAnnotationAtSpecificPosition
              (toUInt (queryItemValue request.query "datasetId") % 65536) 0
              (queryItemValue request.query "refName")
              (toInt (queryItemValue request.query "position"))
              (queryItemValue request.query "time") request.body
              (queryItemValue request.query "author") request.remoteAddress)).2) := by
  unfold routeAnnotationInsert
  simp only [insert_accepted dq self _ _ _ _ _ _ _ _ h]
  split <;> simp_all

/-- The segments of the eight registered patterns. -/
theorem registeredPatterns_segments :
    registeredPatterns.map patternSegments
      = [some [],
         some [Segment.arg, Segment.literal "ref", Segment.arg, Segment.arg],
         some [Segment.arg, Segment.literal "locate", Segment.arg],
         some [Segment.arg, Segment.literal "annotation", Segment.literal "query",
               Segment.arg, Segment.arg],
         some [Segment.literal "annotation", Segment.literal "insert"],
         some [Segment.literal "datasets"],
         some [Segment.arg, Segment.literal "locate_autocomplete", Segment.arg],
         some [Segment.literal "annotation", Segment.literal "search"]] := by
  decide

/-- Among the segment lists of the registered patterns at most one matches a
given list of path segments. -/
theorem at_most_one_segments_match (segs : List String) :
    ([[],
      [Segment.arg, Segment.literal "ref", Segment.arg, Segment.arg],
      [Segment.arg, Segment.literal "locate", Segment.arg],
      [Segment.arg, Segment.literal "annotation", Segment.literal "query",
        Segment.arg, Segment.arg],
      [Segment.literal "annotation", Segment.literal "insert"],
      [Segment.literal "datasets"],
      [Segment.arg, Segment.literal "locate_autocomplete", Segment.arg],
      [Segment.literal "annotation", Segment.literal "search"]].filter
        (fun ps => matchSegments ps segs)).length ≤ 1 := by
  rcases segs with _ | ⟨a, _ | ⟨b, _ | ⟨c, _ | ⟨d, _ | ⟨e, _ | ⟨f, rest⟩⟩⟩⟩⟩⟩
  · simp [List.filter, matchSegments, matchSegment]
  · simp [List.filter, matchSegments, matchSegment]
    split <;> simp
  · by_cases hb : b = "insert"
    · subst hb
      simp [List.filter, matchSegments, matchSegment]
      split <;> simp
    · simp [List.filter, matchSegments, matchSegment, hb]
      split <;> simp
  · by_cases hb : b = "locate"
    · subst hb
      simp [List.filter, matchSegments, matchSegment]
      split <;> simp
    · simp [List.filter, matchSegments, matchSegment, hb]
      split <;> simp
  · simp [List.filter, matchSegments, matchSegment]
    split <;> simp
  · simp [List.filter, matchSegments, matchSegment]
    split <;> simp
  · simp [List.filter, matchSegments, matchSegment]

/-- The region method with a position of exactly two parts: one store call with
the two parts, and the payload is what the store returned. -/
theorem queryProteinByReferenceSequenceRegion_two_parts {σ : Type} (dq : DatabaseQuery σ)
    (self : HttpService σ) (datasetId : Nat) (proteinName position posStart posEnd : String)
    (h : split position = [posStart, posEnd]) :
    (queryProteinByReferenceSequenceRegion dq datasetId proteinName position self).2.calls
        = self.calls ++
          [StoreCall.queryProteinBySequenceRegion datasetId proteinName posStart posEnd]
    ∧ payload (queryProteinByReferenceSequenceRegion dq datasetId proteinName position self).1
        = (dq.queryProteinBySequenceRegion datasetId proteinName posStart posEnd
            self.database).1 := by
  unfold queryProteinByReferenceSequenceRegion
  rw [h]
  simp only []
  split
  · next hr => exact ⟨rfl, by rw [call_fst] at hr; rw [hr]; rfl⟩
  · exact ⟨rfl, rfl⟩

/-- The region method with a position that does not split into two parts:
`ERROR_QUERY_ARGUMENT_INVALID`, and the service state is untouched. -/
theorem queryProteinByReferenceSequenceRegion_rejected {σ : Type} (dq : DatabaseQuery σ)
    (self : HttpService σ) (datasetId : Nat) (proteinName position : String)
    (h : (split position).length ≠ 2) :
    queryProteinByReferenceSequenceRegion dq datasetId proteinName position self
      = (Except.error "ERROR_QUERY_ARGUMENT_INVALID", self) := by
  unfold queryProteinByReferenceSequenceRegion
  split
  · next posStart posEnd heq => rw [heq] at h; exact absurd rfl h
  · rfl

/-- The handler of `/<arg>/ref/<arg>/<arg>` answers `[]` without a store call
for every position that does not split into exactly two parts. -/
theorem routeRef_rejects_unless_two_parts {σ : Type} (dq : DatabaseQuery σ)
    (self : HttpService σ) (datasetId : Nat) (proteinName position : String)
    (h : (split position).length ≠ 2) :
    routeRef dq datasetId proteinName position self
      = (arrayResponse [],
         self.qDebug ("[Warning] " ++ ("/ref/" ++ proteinName ++ "/" ++ position ++ " :")
           ++ "ERROR_QUERY_ARGUMENT_INVALID")) := by
  rw [routeRef_eq, queryProteinByReferenceSequenceRegion_rejected dq self _ _ _ h]
  rfl

/-- The methods that validate one name (`queryRegionByProteinId` and
`queryProteinIdListForAutoComplete`): an empty name is rejected without a store
call; otherwise there is one store call and the payload is what the store
returned. -/
theorem name_queries_payload {σ : Type} (dq : DatabaseQuery σ) (self : HttpService σ)
    (datasetId : Nat) (proteinName : String) :
    (proteinName = "" →
      queryRegionByProteinId dq datasetId proteinName self
          = (Except.error "ERROR_QUERY_ARGUMENT_INVALID", self)
      ∧ queryProteinIdListForAutoComplete dq datasetId proteinName self
          = (Except.error "ERROR_QUERY_ARGUMENT_INVALID", self))
    ∧ (proteinName ≠ "" →
      (queryRegionByProteinId dq datasetId proteinName self).2.calls
          = self.calls ++ [StoreCall.queryRegionByProteinId datasetId proteinName]
      ∧ payload (queryRegionByProteinId dq datasetId proteinName self).1
          = (dq.queryRegionByProteinId datasetId proteinName self.database).1
      ∧ (queryProteinIdListForAutoComplete dq datasetId proteinName self).2.calls
          = self.calls ++ [StoreCall.queryProteinIdListForAutoComplete datasetId proteinName]
      ∧ payload (queryProteinIdListForAutoComplete dq datasetId proteinName self).1
          = (dq.queryProteinIdListForAutoComplete datasetId proteinName self.database).1) := by
  constructor
  · intro h
    unfold queryRegionByProteinId queryProteinIdListForAutoComplete
    rw [if_pos h, if_pos h]
    exact ⟨rfl, rfl⟩
  · intro h
    unfold queryRegionByProteinId queryProteinIdListForAutoComplete
    rw [if_neg h, if_neg h]
    simp only []
    refine ⟨?_, ?_, ?_, ?_⟩
    · split <;> rfl
    · split
      · next hr => rw [call_fst] at hr; rw [hr]; rfl
      · rfl
    · split <;> rfl
    · split
      · next hr => rw [call_fst] at hr; rw [hr]; rfl
      · rfl

/-- The annotation query method: an empty name, start or end is rejected
without a store call; otherwise there is one store call and the payload is what
the store returned. -/
theorem queryAnnotationBySequenceRegion_payload {σ : Type} (dq : DatabaseQuery σ)
    (self : HttpService σ) (datasetId : Nat) (name posStart posEnd : String) :
    ((name = "" ∨ posStart = "" ∨ posEnd = "") →
      queryAnnotationBySequenceRegion dq datasetId name posStart posEnd self
          = (Except.error "ERROR_QUERY_ARGUMENT_INVALID", self))
    ∧ (¬ (name = "" ∨ posStart = "" ∨ posEnd = "") →
      (queryAnnotationBySequenceRegion dq datasetId name posStart posEnd self).2.calls
          = self.calls ++
            [StoreCall.queryAnnotationBySequenceRegion datasetId name posStart posEnd]
      ∧ payload (queryAnnotationBySequenceRegion dq datasetId name posStart posEnd self).1
          = (dq.queryAnnotationBySequenceRegion datasetId name posStart posEnd
              self.database).1) := by
  constructor
  · intro h
    unfold queryAnnotationBySequenceRegion
    rw [if_pos h]
  · intro h
    unfold queryAnnotationBySequenceRegion
    rw [if_neg h]
    simp only []
    constructor
    · split <;> rfl
    · split
      · next hr => rw [call_fst] at hr; rw [hr]; rfl
      · rfl

/-- The handler of `/datasets` writes what the store returned, empty or not,
after exactly one store call and without a log line. -/
theorem routeDatasets_payload {σ : Type} (dq : DatabaseQuery σ) (self : HttpService σ) :
    routeDatasets dq self
      = (arrayResponse (dq.queryDatasetsList self.database).1,
         { database := (dq.queryDatasetsList self.database).2,
           calls := self.calls ++ [StoreCall.queryDatasetsList],
           debug := self.debug }) := rfl

/-- The example of the specification for `/annotation/insert`: name `chr1`,
time `2024-01-01T00:00:00.000`, contents `note` give `SUCCESS` with a store that
succeeds and `FAIL` with a store that fails, whatever the unassigned variable
would hold. -/
theorem routeAnnotationInsert_example (indeterminate : Bool) :
    (routeAnnotationInsert (constStore [] true) indeterminate
        { query := [("datasetId", "1"), ("refName", "chr1"), ("position", "5"),
                    ("time", "2024-01-01T00:00:00.000")],
          body := "note", remoteAddress := "10.0.0.1" } (HttpService.fresh ())).1
      = HandlerResult.responded (writeResponseData
          (QJsonDocument.object [("status", QJsonValue.string "SUCCESS")]) statusOk)
    ∧ (routeAnnotationInsert (constStore [] false) indeterminate
        { query := [("datasetId", "1"), ("refName", "chr1"), ("position", "5"),
                    ("time", "2024-01-01T00:00:00.000")],
          body := "note", remoteAddress := "10.0.0.1" } (HttpService.fresh ())).1
      = HandlerResult.responded (writeResponseData
          (QJsonDocument.object [("status", QJsonValue.string "FAIL")]) statusOk) := by
  constructor
  · rw [routeAnnotationInsert_accepted _ _ _ _ (by decide)]
    rfl
  · rw [routeAnnotationInsert_accepted _ _ _ _ (by decide)]
    rfl

/-! ## Claims -/

/-- C1: `searchAnnotation` throws `ERROR_QUERY_ARGUMENT_INVALID` exactly when
`datasetId` is not strictly between 0 and 5000 or (`id < 0` and contents,
author and remote address are all empty); then the store is not called and the
service state is unchanged.  In every other case the store method
`searchAnnotation` is run once on the database with the arguments unchanged:
the call is recorded, the database is the one the store left, and the outcome
is the rows the store returned, or `NOT_FOUND` when it returned none.  In
particular `datasetId = 0` and `datasetId = 5000` are rejected whatever the
filters are, and so is `(10, -1, "", "", "")`. -/
theorem searchAnnotation_invalid_iff {σ : Type} (dq : DatabaseQuery σ) (self : HttpService σ)
    (datasetId : Nat) (id : Int) (contents authorUsername remoteAddress : String) :
    (( searchAnnotation dq datasetId id contents authorUsername remoteAddress self).1
        = Except.error "ERROR_QUERY_ARGUMENT_INVALID"
      ↔ (¬ (0 < datasetId ∧ datasetId < 5000) ∨
          (id < 0 ∧ contents = "" ∧ authorUsername = "" ∧ remoteAddress = "")))
    ∧ (( searchAnnotation dq datasetId id contents authorUsername remoteAddress self).2.calls
        = if ¬ (0 < datasetId ∧ datasetId < 5000) ∨
            (id < 0 ∧ contents = "" ∧ authorUsername = "" ∧ remoteAddress = "")
          then self.calls
          else self.calls ++
            [ StoreCall.searchAnnotation datasetId id contents authorUsername remoteAddress])
    ∧ ( searchAnnotation dq 0 id contents authorUsername remoteAddress self).1
        = Except.error "ERROR_QUERY_ARGUMENT_INVALID"
    ∧ ( searchAnnotation dq 5000 id contents authorUsername remoteAddress self).1
        = Except.error "ERROR_QUERY_ARGUMENT_INVALID"
    ∧ ( searchAnnotation dq 10 (-1) "" "" "" self)
        = (Except.error "ERROR_QUERY_ARGUMENT_INVALID", self)
    ∧ ( searchAnnotation dq datasetId id contents authorUsername remoteAddress self)
        = if ¬ (0 < datasetId ∧ datasetId < 5000) ∨
            (id < 0 ∧ contents = "" ∧ authorUsername = "" ∧ remoteAddress = "")
          then (Except.error "ERROR_QUERY_ARGUMENT_INVALID", self)
          else
            (if ( dq.searchAnnotation datasetId id contents authorUsername remoteAddress
                  self.database).1 = []
              then Except.error "NOT_FOUND"
              else Except.ok ( dq.searchAnnotation datasetId id contents authorUsername
                  remoteAddress self.database).1,
             { database := ( dq.searchAnnotation datasetId id contents authorUsername
                  remoteAddress self.database).2,
               calls := self.calls ++
                 [ StoreCall.searchAnnotation datasetId id contents authorUsername
                    remoteAddress],
               debug := self.debug }) := by
  refine ⟨?_, ?_, ?_, ?_, ?_, ?_⟩
  · rw [searchAnnotation_eq]
    constructor
    · intro h
      by_contra hc
      rw [if_neg hc] at h
      by_cases hr : (self.call
          ( StoreCall.searchAnnotation datasetId id contents authorUsername remoteAddress)
          ( dq.searchAnnotation datasetId id contents authorUsername remoteAddress)).1 = []
      · simp only [if_pos hr] at h
        exact absurd (Except.error.inj h) (by decide)
      · simp only [if_neg hr] at h
        exact absurd h (by simp)
    · intro hc
      rw [if_pos hc]
  · rw [searchAnnotation_eq]
    by_cases hc : (¬ (0 < datasetId ∧ datasetId < 5000) ∨
        (id < 0 ∧ contents = "" ∧ authorUsername = "" ∧ remoteAddress = ""))
    · simp only [if_pos hc]
    · simp only [if_neg hc]
      split <;> rfl
  · rw [searchAnnotation_eq]; simp
  · rw [searchAnnotation_eq]; simp
  · rw [searchAnnotation_eq]; simp
  · rw [searchAnnotation_eq]
    by_cases hc : (¬ (0 < datasetId ∧ datasetId < 5000) ∨
        (id < 0 ∧ contents = "" ∧ authorUsername = "" ∧ remoteAddress = ""))
    · rw [if_pos hc, if_pos hc]
    · rw [if_neg hc, if_neg hc]
      simp only [HttpService.call]
      split <;> rfl

/-- C8: with non-empty name, time and contents,
`insertSequenceAnnotationAtSpecificPosition` makes exactly one store call, the
insert with annotation id 0 whatever `id` the caller gave and with `datasetId`,
name, position, time, contents, author and remote address unchanged, and
returns the boolean of the store; nothing is written to the debug output.  Two
calls that differ only in `id` therefore behave the same. -/
theorem insert_calls_store_with_id_zero {σ : Type} (dq : DatabaseQuery σ)
    (self : HttpService σ) (datasetId : Nat) (id : Int) (name : String) (position : Int)
    (time contents authorUsername remoteAddress : String)
    (hname : name ≠ "") (htime : time ≠ "") (hcontents : contents ≠ "") :
    insertSequenceAnnotationAtSpecificPosition dq datasetId id name position time contents
        authorUsername remoteAddress self
      = (Except.ok (dq.insertSequenceAnnotationAtSpecificPosition datasetId 0 name position
            time contents authorUsername remoteAddress self.database).1,
         { database := (dq.insertSequenceAnnotationAtSpecificPosition datasetId 0 name
              position time contents authorUsername remoteAddress self.database).2,
           calls := self.calls ++
             [StoreCall.insertSequenceAnnotationAtSpecificPosition datasetId 0 name position
                time contents authorUsername remoteAddress],
           debug := self.debug })
    ∧ ∀ id2 : Int,
        insertSequenceAnnotationAtSpecificPosition dq datasetId id2 name position time
            contents authorUsername remoteAddress self
          = insertSequenceAnnotationAtSpecificPosition dq datasetId id name position time
            contents authorUsername remoteAddress self := by
  constructor
  · unfold insertSequenceAnnotationAtSpecificPosition
    rw [if_neg (by simp [hname, htime, hcontents])]
    rfl
  · intro id2
    rfl

/-- Witness of C8: a caller-supplied id 42 reaches the store as 0. -/
theorem insert_calls_store_with_id_zero_witness :
    insertSequenceAnnotationAtSpecificPosition (constStore sampleRows true) 1 42 "chr1" 5
        "2024-01-01T00:00:00.000" "note" "alice" "127.0.0.1" (HttpService.fresh ())
      = (Except.ok true,
         { database := (),
           calls := [StoreCall.insertSequenceAnnotationAtSpecificPosition 1 0 "chr1" 5
             "2024-01-01T00:00:00.000" "note" "alice" "127.0.0.1"],
           debug := [] }) :=
  (insert_calls_store_with_id_zero (constStore sampleRows true) (HttpService.fresh ()) 1 42
    "chr1" 5 "2024-01-01T00:00:00.000" "note" "alice" "127.0.0.1"
    (by decide) (by decide) (by decide)).1

/-- C10: both handlers that read `datasetId` from the query string narrow the
parsed unsigned integer `n` to 16 bits before anything else uses it.  The
search handler rejects exactly when `n % 65536` is not strictly between 0 and
5000 or no filter is set; otherwise it runs the store method `searchAnnotation`
on the database with `n % 65536` as dataset, and the response and the database
afterwards are those of that run.  The insert handler runs the store method
with `n % 65536` as dataset exactly when name, time and contents are non-empty,
and the status written and the database afterwards are those of that run.  A
search with `datasetId=65537` and an author queries dataset 1; with
`datasetId=65536` it is rejected, the log line naming dataset 0. -/
theorem annotation_handlers_narrow_datasetId {σ : Type} (dq : DatabaseQuery σ)
    (indeterminate : Bool) (request : QHttpServerRequest) (self : HttpService σ) :
    ((routeAnnotationSearch dq request self).2.calls
        = if ¬ (0 < toUInt (queryItemValue request.query "datasetId") % 65536
              ∧ toUInt (queryItemValue request.query "datasetId") % 65536 < 5000)
            ∨ (toInt (queryItemValue request.query "id") < 0 ∧ request.body = ""
                  ∧ queryItemValue request.query "author" = ""
                  ∧ queryItemValue request.query "ipaddress" = "")
          then self.calls
          else self.calls ++
            [ StoreCall.searchAnnotation
                (toUInt (queryItemValue request.query "datasetId") % 65536)
                (toInt (queryItemValue request.query "id")) request.body
                (queryItemValue request.query "author")
                (queryItemValue request.query "ipaddress")])
    ∧ ((routeAnnotationInsert dq indeterminate request self).2.calls
        = if queryItemValue request.query "refName" = ""
              ∨ queryItemValue request.query "time" = "" ∨ request.body = ""
          then self.calls
          else self.calls ++
            [StoreCall.insertSequenceAnnotationAtSpecificPosition
                (toUInt (queryItemValue request.query "datasetId") % 65536) 0
                (queryItemValue request.query "refName")
                (toInt (queryItemValue request.query "position"))
                (queryItemValue request.query "time") request.body
                (queryItemValue request.query "author") request.remoteAddress])
    ∧ (routeAnnotationSearch dq
          { query := [("datasetId", "65537"), ("author", "alice")], body := "",
            remoteAddress := "10.0.0.1" } self).2.calls
        = self.calls ++ [ StoreCall.searchAnnotation 1 0 "" "alice" ""]
    ∧ routeAnnotationSearch dq
          { query := [("datasetId", "65536"), ("author", "alice")], body := "",
            remoteAddress := "10.0.0.1" } self
        = (arrayResponse [],
           self.qDebug
             "[Warning] /annotation/search/0/0/alice/... :ERROR_QUERY_ARGUMENT_INVALID")
    ∧ ((routeAnnotationSearch dq request self).1
        = if ¬ (0 < toUInt (queryItemValue request.query "datasetId") % 65536
              ∧ toUInt (queryItemValue request.query "datasetId") % 65536 < 5000)
            ∨ (toInt (queryItemValue request.query "id") < 0 ∧ request.body = ""
                  ∧ queryItemValue request.query "author" = ""
                  ∧ queryItemValue request.query "ipaddress" = "")
          then arrayResponse []
          else arrayResponse
            ( dq.searchAnnotation
                (toUInt (queryItemValue request.query "datasetId") % 65536)
                (toInt (queryItemValue request.query "id")) request.body
                (queryItemValue request.query "author")
                (queryItemValue request.query "ipaddress") self.database).1)
    ∧ ((routeAnnotationSearch dq request self).2.database
        = if ¬ (0 < toUInt (queryItemValue request.query "datasetId") % 65536
              ∧ toUInt (queryItemValue request.query "datasetId") % 65536 < 5000)
            ∨ (toInt (queryItemValue request.query "id") < 0 ∧ request.body = ""
                  ∧ queryItemValue request.query "author" = ""
                  ∧ queryItemValue request.query "ipaddress" = "")
          then self.database
          else
            ( dq.searchAnnotation
                (toUInt (queryItemValue request.query "datasetId") % 65536)
                (toInt (queryItemValue request.query "id")) request.body
                (queryItemValue request.query "author")
                (queryItemValue request.query "ipaddress") self.database).2)
    ∧ ((routeAnnotationInsert dq indeterminate request self).1
        = HandlerResult.responded (writeResponseData
            (QJsonDocument.object
              [("status", QJsonValue.string
                (if (if queryItemValue request.query "refName" = ""
                          ∨ queryItemValue request.query "time" = "" ∨ request.body = ""
                      then indeterminate
                      else (dq.insertSequenceAnnotationAtSpecificPosition
                        (toUInt (queryItemValue request.query "datasetId") % 65536) 0
                        (queryItemValue request.query "refName")
                        (toInt (queryItemValue request.query "position"))
                        (queryItemValue request.query "time") request.body
                        (queryItemValue request.query "author") request.remoteAddress
                        self.database).1) = true
                 then "SUCCESS" else "FAIL"))])
            statusOk))
    ∧ ((routeAnnotationInsert dq indeterminate request self).2.database
        = if queryItemValue request.query "refName" = ""
              ∨ queryItemValue request.query "time" = "" ∨ request.body = ""
          then self.database
          else
            (dq.insertSequenceAnnotationAtSpecificPosition
                (toUInt (queryItemValue request.query "datasetId") % 65536) 0
                (queryItemValue request.query "refName")
                (toInt (queryItemValue request.query "position"))
                (queryItemValue request.query "time") request.body
                (queryItemValue request.query "author") request.remoteAddress
                self.database).2)
    ∧ (routeAnnotationSearch dq
          { query := [("datasetId", "65537"), ("author", "alice")], body := "",
            remoteAddress := "10.0.0.1" } self).1
        = arrayResponse ( dq.searchAnnotation 1 0 "" "alice" "" self.database).1
    ∧ (routeAnnotationSearch dq
          { query := [("datasetId", "65537"), ("author", "alice")], body := "",
            remoteAddress := "10.0.0.1" } self).2.database
        = ( dq.searchAnnotation 1 0 "" "alice" "" self.database).2 := by
  have hresult : ∀ rq : QHttpServerRequest,
      (routeAnnotationSearch dq rq self).1
        = if ¬ (0 < toUInt (queryItemValue rq.query "datasetId") % 65536
              ∧ toUInt (queryItemValue rq.query "datasetId") % 65536 < 5000)
            ∨ (toInt (queryItemValue rq.query "id") < 0 ∧ rq.body = ""
                  ∧ queryItemValue rq.query "author" = ""
                  ∧ queryItemValue rq.query "ipaddress" = "")
          then arrayResponse []
          else arrayResponse
            ( dq.searchAnnotation
                (toUInt (queryItemValue rq.query "datasetId") % 65536)
                (toInt (queryItemValue rq.query "id")) rq.body
                (queryItemValue rq.query "author")
                (queryItemValue rq.query "ipaddress") self.database).1 := by
    intro rq
    rw [routeAnnotationSearch_eq, respond_result]
    split
    · next hc => rw [searchAnnotation_rejected dq self _ _ _ _ _ hc]; rfl
    · next hc => rw [(searchAnnotation_accepted dq self _ _ _ _ _ hc).2]
  have hdatabase : ∀ rq : QHttpServerRequest,
      (routeAnnotationSearch dq rq self).2.database
        = if ¬ (0 < toUInt (queryItemValue rq.query "datasetId") % 65536
              ∧ toUInt (queryItemValue rq.query "datasetId") % 65536 < 5000)
            ∨ (toInt (queryItemValue rq.query "id") < 0 ∧ rq.body = ""
                  ∧ queryItemValue rq.query "author" = ""
                  ∧ queryItemValue rq.query "ipaddress" = "")
          then self.database
          else
            ( dq.searchAnnotation
                (toUInt (queryItemValue rq.query "datasetId") % 65536)
                (toInt (queryItemValue rq.query "id")) rq.body
                (queryItemValue rq.query "author")
                (queryItemValue rq.query "ipaddress") self.database).2 := by
    intro rq
    rw [routeAnnotationSearch_eq, respond_database, searchAnnotation_eq]
    split
    · rfl
    · simp only [HttpService.call]
      split <;> rfl
  refine ⟨?_, ?_, ?_, ?_, hresult request, hdatabase request, ?_, ?_, ?_, ?_⟩
  · rw [routeAnnotationSearch_eq, respond_calls]
    split
    · next hc => rw [searchAnnotation_rejected dq self _ _ _ _ _ hc]
    · next hc => exact (searchAnnotation_accepted dq self _ _ _ _ _ hc).1
  · unfold routeAnnotationInsert insertSequenceAnnotationAtSpecificPosition
    by_cases hc : (queryItemValue request.query "refName" = ""
        ∨ queryItemValue request.query "time" = "" ∨ request.body = "")
    · simp only [if_pos hc]
      cases indeterminate <;> rfl
    · simp only [if_neg hc, HttpService.call]
      split <;> rfl
  · rw [routeAnnotationSearch_eq, respond_calls]
    exact (searchAnnotation_accepted dq self _ _ _ _ _ (by decide)).1
  · rw [routeAnnotationSearch_eq, searchAnnotation_rejected dq self _ _ _ _ _ (by decide)]
    have h : ("/annotation/search/"
            ++ number (toUInt (queryItemValue
                ({ query := [("datasetId", "65536"), ("author", "alice")], body := "",
                   remoteAddress := "10.0.0.1" } : QHttpServerRequest).query "datasetId")
                % 65536 : Nat) ++ "/"
            ++ number (toInt (queryItemValue
                ({ query := [("datasetId", "65536"), ("author", "alice")], body := "",
                   remoteAddress := "10.0.0.1" } : QHttpServerRequest).query "id")) ++ "/"
            ++ queryItemValue
                ({ query := [("datasetId", "65536"), ("author", "alice")], body := "",
                   remoteAddress := "10.0.0.1" } : QHttpServerRequest).query "author" ++ "/"
            ++ queryItemValue
                ({ query := [("datasetId", "65536"), ("author", "alice")], body := "",
                   remoteAddress := "10.0.0.1" } : QHttpServerRequest).query "ipaddress"
            ++ "... :") = "/annotation/search/0/0/alice/... :" := by decide
    rw [h]
    rfl
  · by_cases hc : (queryItemValue request.query "refName" = ""
        ∨ queryItemValue request.query "time" = "" ∨ request.body = "")
    · rw [routeAnnotationInsert_rejected dq indeterminate request self hc, if_pos hc]
    · rw [routeAnnotationInsert_accepted dq indeterminate request self hc, if_neg hc]
  · by_cases hc : (queryItemValue request.query "refName" = ""
        ∨ queryItemValue request.query "time" = "" ∨ request.body = "")
    · rw [routeAnnotationInsert_rejected dq indeterminate request self hc, if_pos hc]
      rfl
    · rw [routeAnnotationInsert_accepted dq indeterminate request self hc, if_neg hc]
      rfl
  · rw [hresult, if_neg (by decide)]
    rfl
  · rw [hdatabase, if_neg (by decide)]
    rfl

/-- Counterexample to C6: a search request for dataset 10 with no `id` item in
the query string, an empty body and no author or address is not rejected: the
store is called with id 0 and its rows are the response. -/
theorem search_without_id_calls_store :
    hasQueryItem [("datasetId", "10")] "id" = false
    ∧ routeAnnotationSearch (constStore sampleRows true)
        { query := [("datasetId", "10")], body := "", remoteAddress := "10.0.0.1" }
        (HttpService.fresh ())
      = (arrayResponse sampleRows,
         { database := (), calls := [ StoreCall.searchAnnotation 10 0 "" "" ""],
           debug := [] }) := by
  constructor
  · decide
  · rfl

/-- C6 as amended: with `datasetId` inside (0, 5000), a request whose query
string has no `id` item is read with `id = 0`, which counts as a filter: the
store method `searchAnnotation` is called exactly once, with id 0 and the body,
author and address as received (empty or not), and the response is the array
the store returned.  A request without any filter is rejected (no store call,
response `[]`) when its `id` converts to a negative number. -/
theorem search_without_id_reads_zero {σ : Type} (dq : DatabaseQuery σ)
    (request : QHttpServerRequest) (self : HttpService σ)
    (hlow : 0 < toUInt (queryItemValue request.query "datasetId") % 65536)
    (hhigh : toUInt (queryItemValue request.query "datasetId") % 65536 < 5000) :
    (hasQueryItem request.query "id" = false →
      toInt (queryItemValue request.query "id") = 0
      ∧ (routeAnnotationSearch dq request self).2.calls
          = self.calls ++
            [ StoreCall.searchAnnotation
                (toUInt (queryItemValue request.query "datasetId") % 65536) 0 request.body
                (queryItemValue request.query "author")
                (queryItemValue request.query "ipaddress")]
      ∧ (routeAnnotationSearch dq request self).1
          = arrayResponse
              ( dq.searchAnnotation
                (toUInt (queryItemValue request.query "datasetId") % 65536) 0 request.body
                (queryItemValue request.query "author")
                (queryItemValue request.query "ipaddress") self.database).1)
    ∧ (toInt (queryItemValue request.query "id") < 0 → request.body = ""
        → queryItemValue request.query "author" = ""
        → queryItemValue request.query "ipaddress" = ""
        → (routeAnnotationSearch dq request self).2.calls = self.calls
          ∧ (routeAnnotationSearch dq request self).1 = arrayResponse []) := by
  constructor
  · intro hid
    have hzero : toInt (queryItemValue request.query "id") = 0 := by
      rw [queryItemValue_absent _ _ hid, toInt_empty]
    have hacc : ¬ (¬ (0 < toUInt (queryItemValue request.query "datasetId") % 65536
          ∧ toUInt (queryItemValue request.query "datasetId") % 65536 < 5000)
        ∨ ((0 : Int) < 0 ∧ request.body = "" ∧ queryItemValue request.query "author" = ""
            ∧ queryItemValue request.query "ipaddress" = "")) := by
      rintro (h | h)
      · exact h ⟨hlow, hhigh⟩
      · exact absurd h.1 (by decide)
    refine ⟨hzero, ?_, ?_⟩
    · rw [routeAnnotationSearch_eq, respond_calls, hzero]
      exact (searchAnnotation_accepted dq self _ _ _ _ _ hacc).1
    · rw [routeAnnotationSearch_eq, respond_result, hzero]
      rw [(searchAnnotation_accepted dq self _ _ _ _ _ hacc).2]
  · intro hneg hbody hauthor haddress
    have hrej := searchAnnotation_rejected dq self
      (toUInt (queryItemValue request.query "datasetId") % 65536)
      (toInt (queryItemValue request.query "id")) request.body
      (queryItemValue request.query "author") (queryItemValue request.query "ipaddress")
      (Or.inr ⟨hneg, hbody, hauthor, haddress⟩)
    constructor
    · rw [routeAnnotationSearch_eq, respond_calls, hrej]
    · rw [routeAnnotationSearch_eq, respond_result, hrej]
      rfl

/-- Witness of the amended C6: dataset 10, no `id` item, nothing else set. -/
theorem search_without_id_reads_zero_witness :
    (routeAnnotationSearch (constStore sampleRows true)
        { query := [("datasetId", "10")], body := "", remoteAddress := "10.0.0.1" }
        (HttpService.fresh ())).2.calls
      = [ StoreCall.searchAnnotation 10 0 "" "" ""] :=
  ((search_without_id_reads_zero (constStore sampleRows true)
      { query := [("datasetId", "10")], body := "", remoteAddress := "10.0.0.1" }
      (HttpService.fresh ()) (by decide) (by decide)).1 (by decide)).2.1

/-- Counterexample to C7: the response of the welcome route `/` is the plain
text returned by its handler; it carries none of the three headers and is not
a value of `writeResponseData`. -/
theorem welcome_bypasses_writeResponseData :
    (handle (constStore sampleRows true) false Route.welcome (HttpService.fresh ())).1
      = HandlerResult.responded
          { status := 200, headers := [],
            body := ResponseBody.text "Welcome to BeyondGBrowse web interface!" }
    ∧ ([] : List (String × String)) ≠ headerList
    ∧ ∀ (document : QJsonDocument) (status : Nat),
        writeResponseData document status
          ≠ { status := 200, headers := [],
              body := ResponseBody.text "Welcome to BeyondGBrowse web interface!" } := by
  refine ⟨rfl, by decide, ?_⟩
  intro document status h
  have hh : headerList = [] := congrArg Response.headers h
  exact absurd hh (by decide)

/-- C7 as amended: every response produced by one of the seven routes other
than the welcome route `/`, on success and on failure alike, is a value of
`writeResponseData` and carries exactly the three headers
`Access-Control-Allow-Origin: *`, `Access-Control-Allow-Methods: GET, POST`,
`Access-Control-Allow-Headers: X-Requested-With`, with status 200. -/
theorem responder_routes_use_writeResponseData {σ : Type} (dq : DatabaseQuery σ)
    (indeterminate : Bool) (route : Route) (self : HttpService σ) (response : Response)
    (hroute : route ≠ Route.welcome)
    (h : (handle dq indeterminate route self).1 = HandlerResult.responded response) :
    response.headers
        = [("Access-Control-Allow-Origin", "*"),
           ("Access-Control-Allow-Methods", "GET, POST"),
           ("Access-Control-Allow-Headers", "X-Requested-With")]
    ∧ response.status = 200
    ∧ ∃ document : QJsonDocument, response = writeResponseData document statusOk := by
  have key : ∃ document : QJsonDocument, response = writeResponseData document statusOk := by
    cases route with
    | welcome => exact absurd rfl hroute
    | ref datasetId proteinName position =>
      exact ⟨_, respond_uses_writeResponseData
        ("/ref/" ++ proteinName ++ "/" ++ position ++ " :")
        (queryProteinByReferenceSequenceRegion dq datasetId proteinName position self) _ h⟩
    | locate datasetId proteinName =>
      exact ⟨_, respond_uses_writeResponseData ("/locate/" ++ proteinName ++ " :")
        (queryRegionByProteinId dq datasetId proteinName self) _ h⟩
    | annotationQuery datasetId name position =>
      change (routeAnnotationQuery dq datasetId name position self).1 = _ at h
      cases h0 : listAt (split position) 0 with
      | none =>
        unfold routeAnnotationQuery at h
        simp only [h0] at h
        exact absurd h (by simp)
      | some posStart =>
        cases h1 : listAt (split position) 1 with
        | none =>
          unfold routeAnnotationQuery at h
          simp only [h0, h1] at h
          exact absurd h (by simp)
        | some posEnd =>
          rw [routeAnnotationQuery_eq dq datasetId name position posStart posEnd self h0 h1] at h
          exact ⟨_, respond_uses_writeResponseData _ _ _ h⟩
    | annotationInsert request =>
      change (routeAnnotationInsert dq indeterminate request self).1 = _ at h
      rcases routeAnnotationInsert_result dq indeterminate request self with h2 | h2
      · rw [h2] at h
        exact ⟨_, (HandlerResult.responded.inj h).symm⟩
      · rw [h2] at h
        exact ⟨_, (HandlerResult.responded.inj h).symm⟩
    | datasets =>
      exact ⟨_, respond_uses_writeResponseData "/datasets :" (queryDatasetsList dq self) _ h⟩
    | locateAutocomplete datasetId proteinName =>
      exact ⟨_, respond_uses_writeResponseData ("/locate_autocomplete/" ++ proteinName ++ " :")
        (queryProteinIdListForAutoComplete dq datasetId proteinName self) _ h⟩
    | annotationSearch request =>
      change (routeAnnotationSearch dq request self).1 = _ at h
      rw [routeAnnotationSearch_eq] at h
      exact ⟨_, respond_uses_writeResponseData _ _ _ h⟩
  obtain ⟨document, hdoc⟩ := key
  subst hdoc
  exact ⟨rfl, rfl, document, rfl⟩

/-- Witness of the amended C7: the response of `/datasets`. -/
theorem responder_routes_use_writeResponseData_witness :
    (writeResponseData (QJsonDocument.array sampleRows) statusOk).headers
        = [("Access-Control-Allow-Origin", "*"),
           ("Access-Control-Allow-Methods", "GET, POST"),
           ("Access-Control-Allow-Headers", "X-Requested-With")]
    ∧ (writeResponseData (QJsonDocument.array sampleRows) statusOk).status = 200
    ∧ ∃ document : QJsonDocument,
        writeResponseData (QJsonDocument.array sampleRows) statusOk
          = writeResponseData document statusOk :=
  responder_routes_use_writeResponseData (constStore sampleRows true) false Route.datasets
    (HttpService.fresh ()) (writeResponseData (QJsonDocument.array sampleRows) statusOk)
    (by decide) rfl

/-- C2, evaluation at the failing input: the position `1..2..3` holds two
separators and splits into three parts; the handler of
`/<arg>/annotation/query/<arg>/<arg>` takes the first two, calls the store with
them and answers with the rows of the store, while the handler of
`/<arg>/ref/<arg>/<arg>` rejects the same position without a store call. -/
theorem annotationQuery_three_parts_calls_store {σ : Type} (dq : DatabaseQuery σ)
    (self : HttpService σ) :
    split "1..2..3" = ["1", "2", "3"]
    ∧ (routeAnnotationQuery dq 1 "Scan998" "1..2..3" self).2.calls
        = self.calls ++ [StoreCall.queryAnnotationBySequenceRegion 1 "Scan998" "1" "2"]
    ∧ (routeAnnotationQuery dq 1 "Scan998" "1..2..3" self).1
        = arrayResponse (dq.queryAnnotationBySequenceRegion 1 "Scan998" "1" "2" self.database).1
    ∧ routeRef dq 1 "chr1" "1..2..3" self
        = (arrayResponse [],
           self.qDebug "[Warning] /ref/chr1/1..2..3 :ERROR_QUERY_ARGUMENT_INVALID") := by
  have hq := routeAnnotationQuery_eq dq 1 "Scan998" "1..2..3" "1" "2" self
    (by decide) (by decide)
  have hs : queryAnnotationBySequenceRegion dq 1 "Scan998" "1" "2" self
      = (if (self.call (StoreCall.queryAnnotationBySequenceRegion 1 "Scan998" "1" "2")
              (dq.queryAnnotationBySequenceRegion 1 "Scan998" "1" "2")).1 = []
          then (Except.error "NOT_FOUND",
            (self.call (StoreCall.queryAnnotationBySequenceRegion 1 "Scan998" "1" "2")
              (dq.queryAnnotationBySequenceRegion 1 "Scan998" "1" "2")).2)
          else (Except.ok
            (self.call (StoreCall.queryAnnotationBySequenceRegion 1 "Scan998" "1" "2")
              (dq.queryAnnotationBySequenceRegion 1 "Scan998" "1" "2")).1,
            (self.call (StoreCall.queryAnnotationBySequenceRegion 1 "Scan998" "1" "2")
              (dq.queryAnnotationBySequenceRegion 1 "Scan998" "1" "2")).2)) := by
    unfold queryAnnotationBySequenceRegion
    rw [if_neg (by decide)]
  refine ⟨by decide, ?_, ?_, ?_⟩
  · rw [hq, respond_calls, hs]
    split <;> rfl
  · rw [hq, respond_result, hs]
    split
    · next hr => rw [call_fst] at hr; rw [hr]; rfl
    · rfl
  · have hd : split "1..2..3" = ["1", "2", "3"] := by decide
    rw [routeRef_eq]
    unfold queryProteinByReferenceSequenceRegion
    rw [hd]
    rfl

/-- C3, evaluation at the failing input: the positions `5..`, `..` and `..7`
split into two parts of which one is empty; `queryProteinByReferenceSequenceRegion`
does not throw `ERROR_QUERY_ARGUMENT_INVALID` for them but calls the store with
the empty part, while `queryAnnotationBySequenceRegion` rejects an empty start
or end. -/
theorem ref_region_accepts_empty_parts {σ : Type} (dq : DatabaseQuery σ)
    (self : HttpService σ) :
    (split "5.." = ["5", ""] ∧ split ".." = ["", ""] ∧ split "..7" = ["", "7"])
    ∧ (queryProteinByReferenceSequenceRegion dq 1 "chr1" "5.." self).2.calls
        = self.calls ++ [StoreCall.queryProteinBySequenceRegion 1 "chr1" "5" ""]
    ∧ (queryProteinByReferenceSequenceRegion dq 1 "chr1" ".." self).2.calls
        = self.calls ++ [StoreCall.queryProteinBySequenceRegion 1 "chr1" "" ""]
    ∧ (queryProteinByReferenceSequenceRegion dq 1 "chr1" "..7" self).2.calls
        = self.calls ++ [StoreCall.queryProteinBySequenceRegion 1 "chr1" "" "7"]
    ∧ (queryProteinByReferenceSequenceRegion dq 1 "chr1" "5.." self).1
        ≠ Except.error "ERROR_QUERY_ARGUMENT_INVALID"
    ∧ queryAnnotationBySequenceRegion dq 1 "chr1" "5" "" self
        = (Except.error "ERROR_QUERY_ARGUMENT_INVALID", self) := by
  have h1 : split "5.." = ["5", ""] := by decide
  have h2 : split ".." = ["", ""] := by decide
  have h3 : split "..7" = ["", "7"] := by decide
  refine ⟨⟨h1, h2, h3⟩, ?_, ?_, ?_, ?_, ?_⟩
  · unfold queryProteinByReferenceSequenceRegion
    rw [h1]
    simp only []
    split <;> rfl
  · unfold queryProteinByReferenceSequenceRegion
    rw [h2]
    simp only []
    split <;> rfl
  · unfold queryProteinByReferenceSequenceRegion
    rw [h3]
    simp only []
    split <;> rfl
  · unfold queryProteinByReferenceSequenceRegion
    rw [h1]
    simp only []
    split
    · intro h
      exact absurd (Except.error.inj h) (by decide)
    · intro h
      exact Except.noConfusion h
  · unfold queryAnnotationBySequenceRegion
    rw [if_pos (by decide)]

/-- C4, evaluation at the failing input: with an empty `refName` the service
method throws before the store is called, the variable `isInsertSuccess` is
never assigned, and the status written is `SUCCESS` whenever the value read
from it is true. -/
theorem insert_validation_failure_reads_indeterminate {σ : Type} (dq : DatabaseQuery σ)
    (self : HttpService σ) (indeterminate : Bool) :
    routeAnnotationInsert dq indeterminate
        { query := [("datasetId", "1"), ("refName", ""), ("position", "5"),
                    ("time", "2024-01-01T00:00:00.000")],
          body := "note", remoteAddress := "10.0.0.1" } self
      = (HandlerResult.responded (writeResponseData
          (QJsonDocument.object
            [("status", QJsonValue.string (if indeterminate then "SUCCESS" else "FAIL"))])
          statusOk),
         self.qDebug
          "[Warning] /annotation/insert//5/2024-01-01T00:00:00.000/... :ERROR_QUERY_ARGUMENT_INVALID") := by
  rw [routeAnnotationInsert_rejected dq indeterminate _ self (by decide)]
  have hline : ("[Warning] "
         ++ ("/annotation/insert/"
              ++ queryItemValue [("datasetId", "1"), ("refName", ""), ("position", "5"),
                    ("time", "2024-01-01T00:00:00.000")] "refName" ++ "/"
              ++ number (toInt (queryItemValue [("datasetId", "1"), ("refName", ""),
                    ("position", "5"), ("time", "2024-01-01T00:00:00.000")] "position")) ++ "/"
              ++ queryItemValue [("datasetId", "1"), ("refName", ""), ("position", "5"),
                    ("time", "2024-01-01T00:00:00.000")] "time" ++ "/... :")
         ++ "ERROR_QUERY_ARGUMENT_INVALID")
      = "[Warning] /annotation/insert//5/2024-01-01T00:00:00.000/... :ERROR_QUERY_ARGUMENT_INVALID" := by
    decide
  rw [hline]

/-- C5, evaluation at the failing input: the position `12345` has no separator
and splits into one part, so `posList.at(1)` in the handler of
`/<arg>/annotation/query/<arg>/<arg>` is out of range: the handler stops at the
failed assertion, writes no response, makes no store call and logs nothing. -/
theorem annotationQuery_without_separator_stops {σ : Type} (dq : DatabaseQuery σ)
    (self : HttpService σ) :
    split "12345" = ["12345"]
    ∧ listAt (split "12345") 1 = none
    ∧ routeAnnotationQuery dq 1 "Scan998" "12345" self = (HandlerResult.assertFailed, self) := by
  have h0 : listAt (split "12345") 0 = some "12345" := by decide
  have h1 : listAt (split "12345") 1 = none := by decide
  refine ⟨by decide, h1, ?_⟩
  unfold routeAnnotationQuery
  simp only [h0, h1]

/-- C9: the eight registered patterns are pairwise different and, for every
request path, at most one of them matches (a literal segment matches only
itself, `<arg>` matches one non-empty segment without slash): the list of
matching patterns is empty or has one element, so the rule that the pattern
registered first wins never chooses between two handlers.  The paths
`/1/locate/H32_HUMAN` and `/1/locate_autocomplete/H32` are each matched by
their own pattern only. -/
theorem at_most_one_pattern_matches (path : String) :
    registeredPatterns.length = 8
    ∧ registeredPatterns.Nodup
    ∧ matchingPatterns "/1/locate/H32_HUMAN" = ["/<arg>/locate/<arg>"]
    ∧ matchingPatterns "/1/locate_autocomplete/H32" = ["/<arg>/locate_autocomplete/<arg>"]
    ∧ (matchingPatterns path).length ≤ 1
    ∧ (∀ p q : String, p ∈ registeredPatterns → q ∈ registeredPatterns →
        patternMatches p path = true → patternMatches q path = true → p = q) := by
  have hlen : (matchingPatterns path).length ≤ 1 := by
    unfold matchingPatterns
    cases hp : pathSegments path with
    | none =>
      have hnone : ∀ pattern : String, patternMatches pattern path = false := by
        intro pattern
        unfold patternMatches
        rw [hp]
        cases patternSegments pattern <;> rfl
      simp [hnone]
    | some segs =>
      have hfun : (fun pattern => patternMatches pattern path)
          = (fun o : Option (List Segment) =>
              match o with
              | some ps => matchSegments ps segs
              | none => false) ∘ patternSegments := by
        funext pattern
        unfold patternMatches
        rw [hp]
        simp only [Function.comp]
        cases patternSegments pattern <;> rfl
      rw [hfun, ← List.length_map (List.filter _ registeredPatterns) patternSegments,
        ← List.filter_map, registeredPatterns_segments]
      have hsome : ∀ l : List (List Segment),
          (List.filter
            (fun o : Option (List Segment) =>
              match o with
              | some ps => matchSegments ps segs
              | none => false) (l.map some)).length
          = (l.filter (fun ps => matchSegments ps segs)).length := by
        intro l
        rw [List.filter_map, List.length_map]
        rfl
      exact (hsome _).trans_le (at_most_one_segments_match segs)
  refine ⟨rfl, by decide, by decide, by decide, hlen, ?_⟩
  intro p q hp hq hpm hqm
  have hpin : p ∈ matchingPatterns path := by
    unfold matchingPatterns
    exact List.mem_filter.mpr ⟨hp, hpm⟩
  have hqin : q ∈ matchingPatterns path := by
    unfold matchingPatterns
    exact List.mem_filter.mpr ⟨hq, hqm⟩
  match hm : matchingPatterns path with
  | [] => rw [hm] at hpin; exact absurd hpin (List.not_mem_nil p)
  | [x] =>
    rw [hm] at hpin hqin
    rw [List.mem_singleton.mp hpin, List.mem_singleton.mp hqin]
  | x :: y :: rest =>
    rw [hm] at hlen
    simp at hlen

end BeyondGBrowse
